import Mathlib

/-!
Shallow embedding of `src/convertkit/main.py` (the `convertkit` client library).

Python runtime values that flow through the library are modelled by `Val`:
JSON scalars, lists and dicts, plus `APIModel` instances (`Val.model`).
Dict keys are modelled by `PyKey`: JSON dicts only ever carry string keys,
but the code also stores under the key `None` (`GET` line 144 when `field`
is `None`) and under a function object (`account`, where the factory lambda
is passed positionally into `GET`'s `field` parameter), so those two
non-string keys are represented explicitly.

Exceptions raised by the code are modelled by `PyError`; each constructor
corresponds to one family of raise sites in the source (the spec's error
taxonomy names them AuthError / APIError / LookupError / NotFoundError /
AmbiguousMatchError).
-/

set_option autoImplicit false

namespace ConvertKitModel

/-- Kinds of `APIModel` subclasses in the source: `Form`, `Subscriber`,
`Subscription`, `Account`, `Course`, `Tag`. -/
inductive ModelKind where
  | form
  | subscriber
  | subscription
  | account
  | course
  | tag
deriving DecidableEq

/-- Python dict keys used by the code: JSON string keys, the `None` object
(`response[field] = objects` with `field=None`), and a function object
(`account` passes its factory lambda into `field`). -/
inductive PyKey where
  | s (v : String)
  | pyNone
  | func
deriving DecidableEq

/-- Python values handled by the library: JSON data plus `APIModel` objects.
`model kind stored` is an `APIModel` instance whose `self.obj` is `stored`. -/
inductive Val where
  | null
  | bool (b : Bool)
  | int (n : Int)
  | str (s : String)
  | arr (elems : List Val)
  | obj (fields : List (PyKey × Val))
  | model (kind : ModelKind) (stored : Val)

/-- Exceptions raised by the embedded code.  Constructor-to-source map:
`keyError` = Python `KeyError` (a `LookupError`), raised by `self.obj[attr]`
and by `blob["subscriber"]`; `typeError` = Python `TypeError` (`None + list`,
calling the non-callable `NotImplemented` singleton, iterating a non-list);
`attributeError` = Python `AttributeError` (`.get` on a non-dict);
`apiError` = `raise APIError(resp.content)` on HTTP status >= 300;
`authError` = `raise APIError("... needs API secret")` at the secret gates
(the spec taxonomy calls this failure mode AuthError);
`notFoundError` / `ambiguousMatchError` = the two `RuntimeError`s in
`find_form`; `recursionError` = Python recursion limit (pagination fuel). -/
inductive PyError where
  | keyError (key : String)
  | typeError (msg : String)
  | attributeError (msg : String)
  | apiError (body : Val)
  | authError (msg : String)
  | notFoundError
  | ambiguousMatchError
  | recursionError

/-- Association-list lookup, i.e. Python `d.get(k)` returning `None` as
`Option.none`.  JSON-derived dicts never have duplicate keys, so the first
binding is the binding. -/
def envLookup : List (PyKey × Val) → PyKey → Option Val
  | [], _ => none
  | (k2, v) :: rest, k => if k2 = k then some v else envLookup rest k

/-- Python `d[k] = v`: replace the existing binding in place (dict update
preserves insertion order) or append a new one. -/
def dictSet : List (PyKey × Val) → PyKey → Val → List (PyKey × Val)
  | [], k, v => [(k, v)]
  | (k2, v2) :: rest, k, v =>
      if k2 = k then (k, v) :: rest else (k2, v2) :: dictSet rest k v

mutual

/-- Python `==` on the values this library compares.  `True == 1` and
`False == 0` hold across `bool` and `int`; lists compare element-wise;
dicts compare by their bindings (Python dict equality ignores order, the
embedding compares in order; no code path compares dicts); `APIModel`
instances have no custom `__eq__`, so comparison is object identity and two
values reached through different expressions compare unequal (the embedded
code never compares the same entity object with itself via `==`). -/
def pyEq : Val → Val → Bool
  | .null, .null => true
  | .bool a, .bool b => a == b
  | .bool a, .int n => (if a then (1 : Int) else 0) == n
  | .int n, .bool b => n == (if b then (1 : Int) else 0)
  | .int a, .int b => a == b
  | .str a, .str b => a == b
  | .arr xs, .arr ys => pyEqList xs ys
  | .obj fs, .obj gs => pyEqFields fs gs
  | _, _ => false

/-- Element-wise Python `==` on lists. -/
def pyEqList : List Val → List Val → Bool
  | [], [] => true
  | x :: xs, y :: ys => pyEq x y && pyEqList xs ys
  | _, _ => false

/-- Binding-wise Python `==` on dict contents. -/
def pyEqFields : List (PyKey × Val) → List (PyKey × Val) → Bool
  | [], [] => true
  | (k, v) :: fs, (k2, v2) :: gs => k == k2 && pyEq v v2 && pyEqFields fs gs
  | _, _ => false

end

/-- Python `+` on the value shapes the paginator can feed it: list
concatenation, string concatenation, integer addition; every other pair
(in particular `None + list`, the missing-field case) raises `TypeError`. -/
def pyAdd : Val → Val → Except PyError Val
  | .arr a, .arr b => .ok (.arr (a ++ b))
  | .str a, .str b => .ok (.str (a ++ b))
  | .int a, .int b => .ok (.int (a + b))
  | _, _ => .error (.typeError "unsupported operand type for +")

/-- Python `v[k]` for a string key: `KeyError` on a missing key,
`TypeError` when `v` is not a dict. -/
def pyGetItem (v : Val) (k : String) : Except PyError Val :=
  match v with
  | .obj fields =>
      match envLookup fields (.s k) with
      | some x => .ok x
      | none => .error (.keyError k)
  | _ => .error (.typeError "object is not subscriptable")

/-- Python `v[k] = x` for a string key (dicts only). -/
def pySetItem (v : Val) (k : String) (x : Val) : Except PyError Val :=
  match v with
  | .obj fields => .ok (.obj (dictSet fields (.s k) x))
  | _ => .error (.typeError "object does not support item assignment")

/-- `Subscription.decode` (main.py lines 80-83):
`blob["subscriber"] = Subscriber(blob["subscriber"], api); return blob`.
`Subscriber` uses the inherited identity decode, so constructing it just
wraps the raw sub-blob. -/
def Subscription.decode (blob : Val) : Except PyError Val := do
  let sub ← pyGetItem blob "subscriber"
  pySetItem blob "subscriber" (.model .subscriber sub)

/-- `APIModel.__init__` (lines 19-22): `self.obj = self.decode(json_blob, api)`.
Every subclass except `Subscription` inherits the identity `decode`
(lines 27-31). -/
def mkModel (kind : ModelKind) (blob : Val) : Except PyError Val :=
  match kind with
  | .subscription => do
      let stored ← Subscription.decode blob
      .ok (.model .subscription stored)
  | k => .ok (.model k blob)

/-- `APIModel.__getattr__` (lines 24-25): `return self.obj[attr]`. -/
def getattrM (v : Val) (attr : String) : Except PyError Val :=
  match v with
  | .model _ stored => pyGetItem stored attr
  | _ => .error (.attributeError attr)

/-- The attribute value of an entity when the attribute is present
(`Val.null` otherwise); used to state theorems about code whose
attribute lookups are assumed to succeed. -/
def attrD (v : Val) (attr : String) : Val :=
  match getattrM v attr with
  | .ok x => x
  | .error _ => .null

/-- Python `v is None`. -/
def isNone : Val → Bool
  | .null => true
  | _ => false

/-- Exception-propagating map, the semantics of a Python list comprehension
`[f(x) for x in xs]` whose body may raise. -/
def mapE {α β : Type} (f : α → Except PyError β) : List α → Except PyError (List β)
  | [] => .ok []
  | x :: xs => do
      let y ← f x
      let ys ← mapE f xs
      .ok (y :: ys)

/-- Exception-propagating filter, the semantics of a Python list
comprehension `[x for x in xs if p(x)]` whose condition may raise. -/
def filterE {α : Type} (p : α → Except PyError Bool) : List α → Except PyError (List α)
  | [] => .ok []
  | x :: xs => do
      let b ← p x
      let ys ← filterE p xs
      .ok (if b then x :: ys else ys)

/-- One HTTP response: `resp.status_code` and the parsed `resp.json()`. -/
structure HttpResp where
  status : Nat
  body : Val

/-- The remote API, abstracted as the response it serves for each requested
`page` query parameter of one fixed endpoint with fixed non-page parameters
(the code injects `api_key` and optional `api_secret` into the query; those
do not vary within one paginated call, so the page number is the only input
that varies across the requests a single `GET` call issues). -/
def Server : Type := Nat → HttpResp

/-- `GET`'s `field` argument.  The code passes a string, leaves the `None`
default, or (in `account`, by positional mistake) a function object. -/
inductive FieldArg where
  | noneF
  | strF (s : String)
  | funcF
deriving DecidableEq

/-- Python truthiness of the `field` argument (`if field`): `None` and the
empty string are falsy. -/
def FieldArg.truthy : FieldArg → Bool
  | .noneF => false
  | .strF s => !s.isEmpty
  | .funcF => true

/-- The dict key that `response[field] = objects` stores under. -/
def FieldArg.key : FieldArg → PyKey
  | .noneF => .pyNone
  | .strF s => .s s
  | .funcF => .func

/-- Lines 141-148 of `GET`: `if page != 1: return objects` (defer factory
conversion during pagination), else `response[field] = objects` and apply
the factory to the whole envelope if one was given. -/
def GETfinish (env : List (PyKey × Val)) (field : FieldArg)
    (factory : Option (Val → Except PyError Val)) (page : Nat) (objects : Val) :
    Except PyError Val :=
  if page ≠ 1 then
    .ok objects
  else
    let env2 := dictSet env field.key objects
    match factory with
    | some fac => fac (.obj env2)
    | none => .ok (.obj env2)

/-- `ConvertKit.GET` (lines 116-148).  Returns the list of page numbers
requested (in request order) together with the returned value or the raised
exception.  Faithful points: `objects = response.get(field) if field else []`
yields Python `None` (`Val.null`), not `[]`, when the field is missing;
the pagination test compares `response.get("page", 1)` with
`response.get("total_pages", 1)` under Python `==`; the log call on line 139
evaluates `response["total_pages"]` and so raises `KeyError` when that key
is absent; the recursive call does not forward `lazy` (its default is
`False`, and the call is only reached when `lazy` is falsy); accumulated
pages are combined with Python `+`, which raises `TypeError` when a page
contributed `None`.  `fuel` models the Python recursion limit. -/
def GET (server : Server) (field : FieldArg)
    (factory : Option (Val → Except PyError Val)) (lazy : Bool) (page : Nat) :
    Nat → List Nat × Except PyError Val
  | 0 => ([], .error .recursionError)
  | fuel + 1 =>
    let resp := server page
    if 300 ≤ resp.status then
      ([page], .error (.apiError resp.body))
    else
      match resp.body with
      | .obj env =>
        let objects : Val :=
          if field.truthy then (envLookup env field.key).getD .null else .arr []
        let pageV := (envLookup env (.s "page")).getD (.int 1)
        let tpV := (envLookup env (.s "total_pages")).getD (.int 1)
        if !lazy && !pyEq pageV tpV then
          match envLookup env (.s "total_pages") with
          | none => ([page], .error (.keyError "total_pages"))
          | some _ =>
            match GET server field factory false (page + 1) fuel with
            | (reqs, .error e) => (page :: reqs, .error e)
            | (reqs, .ok nextObjects) =>
              match pyAdd objects nextObjects with
              | .error e => (page :: reqs, .error e)
              | .ok objects2 => (page :: reqs, GETfinish env field factory page objects2)
        else
          ([page], GETfinish env field factory page objects)
      | _ => ([page], .error (.attributeError "get"))

/-- The client facade configuration (`ConvertKit.__init__`, lines 110-114):
the API key and the optional API secret. -/
structure ConvertKit where
  api_key : String
  api_secret : Option String

/-- Python truthiness of `self.api_secret` (`if not self.api_secret`):
`None` and the empty string are falsy. -/
def ConvertKit.secretTruthy (ck : ConvertKit) : Bool :=
  match ck.api_secret with
  | none => false
  | some s => !s.isEmpty

/-- The factory shape shared by `list_forms`, `tags`, `sequences` and
`list_subscriptions`: `lambda response: [Model(x, api=self) for x in
response[field]]` — square brackets, so a missing field raises `KeyError`
and a non-list value is not iterated (dict/str iteration is not reproduced;
no claim exercises it). -/
def listFactory (kind : ModelKind) (field : String) (response : Val) :
    Except PyError Val := do
  let v ← pyGetItem response field
  match v with
  | .arr xs => do
      let ys ← mapE (mkModel kind) xs
      .ok (.arr ys)
  | _ => .error (.typeError "object is not iterable")

/-- `ConvertKit.list_forms` (lines 168-172). -/
def ConvertKit.list_forms (server : Server) (fuel : Nat) :
    List Nat × Except PyError Val :=
  GET server (.strF "forms") (some (listFactory .form "forms")) false 1 fuel

/-- `ConvertKit.tags` (lines 214-218). -/
def ConvertKit.tags (server : Server) (fuel : Nat) :
    List Nat × Except PyError Val :=
  GET server (.strF "tags") (some (listFactory .tag "tags")) false 1 fuel

/-- Lines 176-185 of `ConvertKit.find_form`: the filtering applied to the
listed forms.  The log f-string on line 176 evaluates `x.id` for every
listed form; the two comprehensions filter by id and then by name, each
only when its argument `is not None`; then zero matches raise the
"Did not find a form" RuntimeError, more than one match raises the
"More than one form matched" RuntimeError, and `forms.pop()` returns the
single remaining form. -/
def find_form_filter (forms : List Val) (form_id form_name : Val) :
    Except PyError Val :=
  mapE (fun f => getattrM f "id") forms >>= fun _ =>
  (if isNone form_id then Except.ok forms
   else filterE (fun f =>
     getattrM f "id" >>= fun i => Except.ok (pyEq i form_id)) forms) >>= fun forms1 =>
  (if isNone form_name then Except.ok forms1
   else filterE (fun f =>
     getattrM f "name" >>= fun n => Except.ok (pyEq n form_name)) forms1) >>= fun forms2 =>
  match forms2 with
  | [] => .error .notFoundError
  | [f] => .ok f
  | _ => .error .ambiguousMatchError

/-- `ConvertKit.find_form` (lines 174-185): list all forms, then filter. -/
def ConvertKit.find_form (server : Server) (fuel : Nat) (form_id form_name : Val) :
    List Nat × Except PyError Val :=
  match ConvertKit.list_forms server fuel with
  | (reqs, .error e) => (reqs, .error e)
  | (reqs, .ok (.arr forms)) => (reqs, find_form_filter forms form_id form_name)
  | (reqs, .ok _) => (reqs, .error (.typeError "object is not iterable"))

/-- Lines 224-227 of `ConvertKit.find_tag`: the loop over the listed tags.
Python `or` short-circuits: `tag.name` is only read when `tag.id == id` is
false.  Returns the first match, or `None` when the loop falls through. -/
def find_tag_loop (tags : List Val) (id name : Val) : Except PyError (Option Val) :=
  match tags with
  | [] => .ok none
  | t :: rest => do
      let i ← getattrM t "id"
      if pyEq i id then
        .ok (some t)
      else do
        let n ← getattrM t "name"
        if pyEq n name then
          .ok (some t)
        else
          find_tag_loop rest id name

/-- `ConvertKit.find_tag` (lines 220-227): list all tags, then scan. -/
def ConvertKit.find_tag (server : Server) (fuel : Nat) (id name : Val) :
    List Nat × Except PyError (Option Val) :=
  match ConvertKit.tags server fuel with
  | (reqs, .error e) => (reqs, .error e)
  | (reqs, .ok (.arr tags)) => (reqs, find_tag_loop tags id name)
  | (reqs, .ok _) => (reqs, .error (.typeError "object is not iterable"))

/-- The factory inside `list_subscriptions` (line 53):
`lambda response: [Subscription(x, api=self.api) for x in
response["subscriptions"]]`. -/
def subscriptionsFactory (response : Val) : Except PyError Val :=
  listFactory .subscription "subscriptions" response

/-- `SubscriptionMixin.list_subscriptions` (lines 50-56), for an entity
`self` with a `MODEL_ENDPOINT`: gate on the API secret, then build the
endpoint f-string (which reads `self.id`), then run the paginated `GET`
with field `"subscriptions"`. -/
def SubscriptionMixin.list_subscriptions (self : Val) (ck : ConvertKit)
    (server : Server) (fuel : Nat) : List Nat × Except PyError Val :=
  if !ck.secretTruthy then
    ([], .error (.authError "Form subscription listing endpoint needs API secret"))
  else
    match getattrM self "id" with
    | .error e => ([], .error e)
    | .ok _ =>
        GET server (.strF "subscriptions") (some subscriptionsFactory) false 1 fuel

/-- `ConvertKit.account` (lines 187-192): gate on the API secret, then
`self.GET("/account", lambda x: Account(**x), api_secret=...)`.  The lambda
is passed positionally and lands in `GET`'s second parameter `field`, so
`factory` stays `None`: `response.get(<lambda>)` finds no such key
(`objects` becomes `None`), `response[<lambda>] = None` stores under the
function object, and the raw envelope is returned. -/
def ConvertKit.account (ck : ConvertKit) (server : Server) (fuel : Nat) :
    List Nat × Except PyError Val :=
  if !ck.secretTruthy then
    ([], .error (.authError "account endpoint needs API secret"))
  else
    GET server .funcF none false 1 fuel

/-- `ConvertKit.find_sequence` (lines 200-211): gate on the API secret
(reusing the "account endpoint" message, line 206); then, when `name is not
None`, execute `raise NotImplemented("finding a sequence by name not
currently supported")` — the `NotImplemented` singleton is not callable, so
evaluating that raise expression itself raises `TypeError`; otherwise run
the paginated `GET` (field left at its `None` default, factory wrapping the
envelope in a `Course`). -/
def ConvertKit.find_sequence (ck : ConvertKit) (server : Server)
    (name : Val) (lazy : Bool) (fuel : Nat) : List Nat × Except PyError Val :=
  if !ck.secretTruthy then
    ([], .error (.authError "account endpoint needs API secret"))
  else if isNone name then
    GET server .noneF (some (fun r => mkModel .course r)) lazy 1 fuel
  else
    ([], .error (.typeError "NotImplementedType object is not callable"))

/-- Whether a value is an `APIModel` instance (as opposed to raw JSON). -/
def Val.isEntity : Val → Bool
  | .model _ _ => true
  | _ => false

/-- The filter predicate that `find_form` implements: a form passes when its
id matches `form_id` (no constraint when `form_id` is `None`) AND its name
matches `form_name` (no constraint when `form_name` is `None`). -/
def formMatches (form_id form_name : Val) (f : Val) : Bool :=
  (if isNone form_id then true else pyEq (attrD f "id") form_id) &&
  (if isNone form_name then true else pyEq (attrD f "name") form_name)

/-- The hypothesis that every listed entity exposes both an `id` and a
`name` attribute (every form/tag served by the real API does). -/
def hasIdAndName (l : List Val) : Prop :=
  ∀ g ∈ l, (∃ v, getattrM g "id" = .ok v) ∧ (∃ v, getattrM g "name" = .ok v)

/-- The hypotheses under which the paginator's happy path runs: each page
`i` of `1..N` is served with a success status and a JSON object envelope
reporting `page = i` and `total_pages = N` and carrying the extraction
field `f` as the list `items i`. -/
def pagesOk (server : Server) (f : String) (env : Nat → List (PyKey × Val))
    (items : Nat → List Val) (N : Nat) : Prop :=
  ∀ i, 1 ≤ i → i ≤ N →
    (server i).status < 300 ∧
    (server i).body = .obj (env i) ∧
    envLookup (env i) (.s "page") = some (.int i) ∧
    envLookup (env i) (.s "total_pages") = some (.int N) ∧
    envLookup (env i) (.s f) = some (.arr (items i))

/-! ### Supporting lemmas -/

@[simp] theorem ok_bind {α β : Type} (a : α) (f : α → Except PyError β) :
    (Except.ok a >>= f) = f a := rfl

theorem envLookup_dictSet (fs : List (PyKey × Val)) (k : PyKey) (v : Val) :
    envLookup (dictSet fs k v) k = some v := by
  induction fs with
  | nil => simp [dictSet, envLookup]
  | cons kv rest ih =>
      obtain ⟨k2, v2⟩ := kv
      by_cases h : k2 = k <;> simp [dictSet, envLookup, h, ih]

theorem mapE_mkModel_form (xs : List Val) :
    mapE (mkModel .form) xs = .ok (xs.map (fun x => Val.model .form x)) := by
  induction xs with
  | nil => rfl
  | cons x xs ih => simp [mapE, mkModel, ih]

theorem mapE_ok_of_forall {α β : Type} (p : α → Except PyError β) (l : List α)
    (h : ∀ a ∈ l, ∃ b, p a = .ok b) : ∃ ys, mapE p l = .ok ys := by
  induction l with
  | nil => exact ⟨[], rfl⟩
  | cons a l ih =>
      obtain ⟨b, hb⟩ := h a (by simp)
      obtain ⟨ys, hys⟩ := ih (fun a ha => h a (by simp [ha]))
      exact ⟨b :: ys, by simp [mapE, hb, hys]⟩

theorem filterE_eq_filter {α : Type} (p : α → Except PyError Bool) (q : α → Bool)
    (l : List α) (h : ∀ a ∈ l, p a = .ok (q a)) :
    filterE p l = .ok (l.filter q) := by
  induction l with
  | nil => rfl
  | cons a l ih =>
      have ha := h a (by simp)
      have ih' := ih (fun a ha => h a (by simp [ha]))
      by_cases hq : q a <;> simp [filterE, ha, ih', List.filter, hq]

theorem pyEq_int_self (n : Int) : pyEq (.int n) (.int n) = true := by
  simp [pyEq]

theorem pyEq_int_of_ne {a b : Int} (h : a ≠ b) : pyEq (.int a) (.int b) = false := by
  simp [pyEq, h]

theorem fieldTruthy_of_ne_empty {f : String} (h : f ≠ "") :
    (FieldArg.strF f).truthy = true := by
  have : f.isEmpty = false := by
    rw [← Bool.not_eq_true, String.isEmpty_iff]
    exact h
  simp [FieldArg.truthy, this]

theorem flatten_length_const (items : Nat → List Val) (k : Nat) :
    ∀ n s, (∀ i, s ≤ i → i < s + n → (items i).length = k) →
      (((List.range' s n).map items).flatten).length = n * k := by
  intro n
  induction n with
  | zero => intro s _; simp
  | succ n ih =>
      intro s h
      have hs := h s (by omega) (by omega)
      have ih' := ih (s + 1) (fun i h1 h2 => h i (by omega) (by omega))
      simp [List.range'_succ, hs, ih', Nat.succ_mul, Nat.add_comm]

/-! ### Concrete servers used by counterexamples and code-bug evaluations -/

/-- A server no claim-relevant call ever reaches (used where the embedded
code must fail before issuing any request). -/
def dummyServer : Server := fun _ => ⟨200, .obj []⟩

/-- A server for `/account`: a plain metadata envelope with no pagination
fields. -/
def accountServer : Server := fun _ =>
  ⟨200, .obj [(.s "name", .str "Acme"), (.s "primary_email_address", .str "me@acme.test")]⟩

/-- Two pages of forms where page 1 lacks the `forms` field. -/
def missingFieldServer : Server := fun p =>
  match p with
  | 1 => ⟨200, .obj [(.s "page", .int 1), (.s "total_pages", .int 2)]⟩
  | _ => ⟨200, .obj [(.s "page", .int 2), (.s "total_pages", .int 2),
                     (.s "forms", .arr [.int 7])]⟩

/-- A single page that lacks the `forms` field. -/
def missingFieldOnePage : Server := fun _ =>
  ⟨200, .obj [(.s "page", .int 1), (.s "total_pages", .int 1)]⟩

/-- Page 1 reports `total_pages = 0` (and `page = 1`); page 2 reports a
self-consistent envelope so the run terminates there. -/
def totalPagesZeroServer : Server := fun p =>
  match p with
  | 1 => ⟨200, .obj [(.s "page", .int 1), (.s "total_pages", .int 0),
                     (.s "subscribers", .arr [])]⟩
  | _ => ⟨200, .obj [(.s "page", .int 2), (.s "total_pages", .int 2),
                     (.s "subscribers", .arr [])]⟩

/-! ### Claim theorems -/

/-- C2: attribute access on an Entity built from a JSON mapping `m` with the
default identity decode returns `m[k]` for every key `k` present in `m`, and
fails with a `KeyError` (a `LookupError`) naming the key when `k` is absent. -/
theorem entity_attribute_delegation (m : List (PyKey × Val)) (kind : ModelKind)
    (key : String) (hkind : kind ≠ ModelKind.subscription) :
    mkModel kind (.obj m) = .ok (.model kind (.obj m)) ∧
    (∀ v, envLookup m (.s key) = some v →
      getattrM (.model kind (.obj m)) key = .ok v) ∧
    (envLookup m (.s key) = none →
      getattrM (.model kind (.obj m)) key = .error (.keyError key)) := by
  refine ⟨?_, ?_, ?_⟩
  · cases kind <;> first | rfl | exact absurd rfl hkind
  · intro v hv
    simp [getattrM, pyGetItem, hv]
  · intro hv
    simp [getattrM, pyGetItem, hv]

/-- Witness for C2 at a concrete mapping: a present key is returned, an
absent key raises `KeyError` naming it. -/
theorem entity_attribute_delegation_witness :
    getattrM (.model .form (.obj [(.s "a", .int 1), (.s "b", .str "x")])) "b" =
      .ok (.str "x") ∧
    getattrM (.model .form (.obj [(.s "a", .int 1)])) "missing" =
      .error (.keyError "missing") :=
  ⟨(entity_attribute_delegation [(.s "a", .int 1), (.s "b", .str "x")] .form "b"
      (by decide)).2.1 (.str "x") rfl,
   (entity_attribute_delegation [(.s "a", .int 1)] .form "missing"
      (by decide)).2.2 rfl⟩

/-- C6: decoding a Subscription whose raw blob contains a nested
`subscriber` mapping yields a Subscription whose `subscriber` attribute is a
Subscriber entity (never the raw mapping). -/
theorem subscription_decode_wraps_subscriber (fields sfields : List (PyKey × Val))
    (h : envLookup fields (.s "subscriber") = some (.obj sfields)) :
    mkModel .subscription (.obj fields) =
      .ok (.model .subscription
        (.obj (dictSet fields (.s "subscriber")
          (.model .subscriber (.obj sfields))))) ∧
    getattrM
      (.model .subscription
        (.obj (dictSet fields (.s "subscriber")
          (.model .subscriber (.obj sfields))))) "subscriber" =
      .ok (.model .subscriber (.obj sfields)) ∧
    Val.isEntity (.model .subscriber (.obj sfields)) = true := by
  refine ⟨?_, ?_, rfl⟩
  · simp [mkModel, Subscription.decode, pyGetItem, pySetItem, h]
  · simp [getattrM, pyGetItem, envLookup_dictSet]

/-- Witness for C6 at a concrete subscription blob. -/
theorem subscription_decode_wraps_subscriber_witness :
    mkModel .subscription
      (.obj [(.s "id", .int 5),
             (.s "subscriber", .obj [(.s "email_address", .str "me@acme.test")])]) =
      .ok (.model .subscription
        (.obj [(.s "id", .int 5),
               (.s "subscriber",
                .model .subscriber (.obj [(.s "email_address", .str "me@acme.test")]))])) :=
  (subscription_decode_wraps_subscriber
    [(.s "id", .int 5),
     (.s "subscriber", .obj [(.s "email_address", .str "me@acme.test")])]
    [(.s "email_address", .str "me@acme.test")] rfl).1

/-- C3: on a client constructed without an API secret, each secret-gated
operation (`list_subscriptions`, `account`, `find_sequence`) fails with the
AuthError-family `APIError` raised at its secret gate, and the request log
is empty: no network call is attempted. -/
theorem secret_gate_auth_error (ck : ConvertKit) (hsec : ck.api_secret = none)
    (self : Val) (server : Server) (fuel : Nat) (name : Val) (lazy : Bool) :
    SubscriptionMixin.list_subscriptions self ck server fuel =
      ([], .error (.authError "Form subscription listing endpoint needs API secret")) ∧
    ConvertKit.account ck server fuel =
      ([], .error (.authError "account endpoint needs API secret")) ∧
    ConvertKit.find_sequence ck server name lazy fuel =
      ([], .error (.authError "account endpoint needs API secret")) := by
  have h : ck.secretTruthy = false := by
    simp [ConvertKit.secretTruthy, hsec]
  refine ⟨?_, ?_, ?_⟩ <;>
    simp [SubscriptionMixin.list_subscriptions, ConvertKit.account,
          ConvertKit.find_sequence, h]

/-- Witness for C3: a concrete secretless client, each gated operation, a
concrete server. -/
theorem secret_gate_auth_error_witness :
    SubscriptionMixin.list_subscriptions
        (.model .form (.obj [(.s "id", .int 3)])) ⟨"key", none⟩ dummyServer 5 =
      ([], .error (.authError "Form subscription listing endpoint needs API secret")) ∧
    ConvertKit.account ⟨"key", none⟩ dummyServer 5 =
      ([], .error (.authError "account endpoint needs API secret")) ∧
    ConvertKit.find_sequence ⟨"key", none⟩ dummyServer (.str "welcome") false 5 =
      ([], .error (.authError "account endpoint needs API secret")) :=
  secret_gate_auth_error ⟨"key", none⟩ rfl
    (.model .form (.obj [(.s "id", .int 3)])) dummyServer 5 (.str "welcome") false

/-- C9 (code bug): `find_sequence` with a non-None name executes
`raise NotImplemented("finding a sequence by name not currently supported")`;
the `NotImplemented` singleton is not callable, so the call raises
`TypeError`, not `NotImplementedError`.  It still fails before any network
request (empty request log), but with the wrong exception type. -/
theorem find_sequence_by_name_type_error :
    ConvertKit.find_sequence ⟨"key", some "s3cr3t"⟩ dummyServer
        (.str "welcome") false 10 =
      ([], .error (.typeError "NotImplementedType object is not callable")) := rfl

/-- C10 (code bug): `account()` on a secret-configured client returns the
raw response mapping, not an `Account` entity: the factory lambda is passed
positionally into `GET`'s `field` parameter, so it is never applied; the
envelope merely gains a junk binding (function-object key mapped to `None`)
and is returned as-is. -/
theorem account_returns_raw_mapping :
    ConvertKit.account ⟨"key", some "s3cr3t"⟩ accountServer 10 =
      ([1], .ok (.obj [(.s "name", .str "Acme"),
                       (.s "primary_email_address", .str "me@acme.test"),
                       (.func, .null)])) ∧
    Val.isEntity (.obj [(.s "name", .str "Acme"),
                        (.s "primary_email_address", .str "me@acme.test"),
                        (.func, .null)]) = false := ⟨rfl, rfl⟩

/-- C8 (code bug): a page missing the requested extraction field yields
Python `None` (`response.get(field)` has no default), not an empty list.
With a second page present, aggregation then evaluates `None + list` and
raises `TypeError` after both requests were issued; on a single page the
call returns the envelope with the field set to `None`, not `[]`. -/
theorem missing_field_crashes_pagination :
    GET missingFieldServer (.strF "forms") none false 1 10 =
      ([1, 2], .error (.typeError "unsupported operand type for +")) ∧
    GET missingFieldOnePage (.strF "forms") none false 1 10 =
      ([1], .ok (.obj [(.s "page", .int 1), (.s "total_pages", .int 1),
                       (.s "forms", .null)])) := ⟨rfl, rfl⟩

/-- C7 counterexample: a first page whose envelope reports
`total_pages = 0` (with `page = 1`) does NOT terminate immediately — the
stop test is `page == total_pages`, and `1 != 0`, so the code requests
page 2. -/
theorem total_pages_zero_requests_next_page :
    envLookup [(.s "page", Val.int 1), (.s "total_pages", Val.int 0),
               (.s "subscribers", Val.arr [])] (.s "total_pages") =
      some (.int 0) ∧
    (GET totalPagesZeroServer (.strF "subscribers") none false 1 10).1 = [1, 2] ∧
    [1, 2] ≠ [1] := ⟨rfl, rfl, by decide⟩

/-- C7 (amended): the paginated GET terminates immediately after page 1 --
no further requests, returning only that page's extracted items -- exactly
when the first envelope's reported `page` (default 1) equals its reported
`total_pages` (default 1) under Python `==`; in particular when it reports
`page = 1` and `total_pages = 1`.  A reported `total_pages` of 0 alongside
`page = 1` does not qualify. -/
theorem first_page_terminal (server : Server) (env : List (PyKey × Val))
    (f : String) (items : List Val) (fuel : Nat)
    (hfuel : 1 ≤ fuel)
    (hstatus : (server 1).status < 300)
    (hbody : (server 1).body = .obj env)
    (hstop : pyEq ((envLookup env (.s "page")).getD (.int 1))
                  ((envLookup env (.s "total_pages")).getD (.int 1)) = true)
    (hf : f ≠ "")
    (hitems : envLookup env (.s f) = some (.arr items)) :
    GET server (.strF f) none false 1 fuel =
      ([1], .ok (.obj (dictSet env (.s f) (.arr items)))) := by
  match fuel, hfuel with
  | fuel + 1, _ =>
    have hst : ¬ 300 ≤ (server 1).status := by omega
    simp [GET, hst, hbody, hstop, fieldTruthy_of_ne_empty hf,
          FieldArg.key, hitems, GETfinish]

/-- Witness for C7's amended claim: one page reporting `page = 1`,
`total_pages = 1`. -/
theorem first_page_terminal_witness :
    GET (fun _ => ⟨200, .obj [(.s "page", .int 1), (.s "total_pages", .int 1),
                              (.s "forms", .arr [.int 7])]⟩)
        (.strF "forms") none false 1 3 =
      ([1], .ok (.obj [(.s "page", .int 1), (.s "total_pages", .int 1),
                       (.s "forms", .arr [.int 7])])) :=
  first_page_terminal _
    [(.s "page", .int 1), (.s "total_pages", .int 1), (.s "forms", .arr [.int 7])]
    "forms" [.int 7] 3 (by omega) (by decide) rfl rfl (by decide) rfl

/-- C5: `find_tag` scans the tags in order and returns the first tag whose
id equals the given id OR whose name equals the given name, and returns
`None` (absence, not an error) when no tag matches: the loop is equivalent
to `List.find?` of the disjunctive predicate. -/
theorem find_tag_first_match (tags : List Val) (id name : Val)
    (h : hasIdAndName tags) :
    find_tag_loop tags id name =
      .ok (tags.find? fun t => pyEq (attrD t "id") id || pyEq (attrD t "name") name) := by
  induction tags with
  | nil => rfl
  | cons t rest ih =>
      obtain ⟨⟨i, hi⟩, ⟨n, hn⟩⟩ := h t (by simp)
      have hi' : attrD t "id" = i := by simp [attrD, hi]
      have hn' : attrD t "name" = n := by simp [attrD, hn]
      have ih' := ih (fun g hg => h g (by simp [hg]))
      by_cases h1 : pyEq i id = true
      · rw [List.find?_cons_of_pos _ (by simp [hi', h1])]
        simp [find_tag_loop, hi, h1]
      · by_cases h2 : pyEq n name = true
        · rw [List.find?_cons_of_pos _ (by simp [hi', hn', h2])]
          simp [find_tag_loop, hi, hn, h1, h2]
        · rw [List.find?_cons_of_neg _ (by simp [hi', hn', h1, h2])]
          simp [find_tag_loop, hi, hn, h1, h2, ih']

/-- A concrete tag entity with id 1 and name "a". -/
def sampleTagA : Val := .model .tag (.obj [(.s "id", .int 1), (.s "name", .str "a")])

/-- A concrete tag entity with id 2 and name "b". -/
def sampleTagB : Val := .model .tag (.obj [(.s "id", .int 2), (.s "name", .str "b")])

/-- Witness for C5 on the tags with ids 1, 2 and names "a", "b": searching
by name "b" finds the second tag, by id 1 the first, and by id 99 with name
"missing" finds nothing (returned as absence, not an error). -/
theorem find_tag_first_match_witness :
    find_tag_loop [sampleTagA, sampleTagB] .null (.str "b") = .ok (some sampleTagB) ∧
    find_tag_loop [sampleTagA, sampleTagB] (.int 1) .null = .ok (some sampleTagA) ∧
    find_tag_loop [sampleTagA, sampleTagB] (.int 99) (.str "missing") = .ok none := by
  have hab : hasIdAndName [sampleTagA, sampleTagB] := by
    intro g hg
    rcases List.mem_cons.mp hg with rfl | hg2
    · exact ⟨⟨_, rfl⟩, ⟨_, rfl⟩⟩
    · rcases List.mem_cons.mp hg2 with rfl | hg3
      · exact ⟨⟨_, rfl⟩, ⟨_, rfl⟩⟩
      · exact absurd hg3 (List.not_mem_nil g)
  refine ⟨?_, ?_, ?_⟩
  · rw [find_tag_first_match _ _ _ hab]; rfl
  · rw [find_tag_first_match _ _ _ hab]; rfl
  · rw [find_tag_first_match _ _ _ hab]; rfl

/-- The sequential id-then-name filtering of `find_form_filter` computes the
single pure filter by the conjunctive predicate `formMatches`. -/
theorem find_form_filter_eq (forms : List Val) (fid fname : Val)
    (h : hasIdAndName forms) :
    find_form_filter forms fid fname =
      (match forms.filter (formMatches fid fname) with
       | [] => .error .notFoundError
       | [g] => .ok g
       | _ => .error .ambiguousMatchError) := by
  obtain ⟨ys, hys⟩ := mapE_ok_of_forall (fun f => getattrM f "id") forms
    (fun g hg => (h g hg).1)
  have hstep1 :
      (if isNone fid then Except.ok forms
       else filterE (fun f =>
         getattrM f "id" >>= fun i => Except.ok (pyEq i fid)) forms) =
      .ok (forms.filter fun f => if isNone fid then true else pyEq (attrD f "id") fid) := by
    by_cases hfid : isNone fid = true
    · simp [hfid, List.filter_true]
    · simp only [hfid, if_false, Bool.false_eq_true]
      refine filterE_eq_filter _ _ _ (fun g hg => ?_)
      obtain ⟨v, hv⟩ := (h g hg).1
      simp [hv, attrD]
  have hstep2 :
      (if isNone fname then
         Except.ok (forms.filter fun f => if isNone fid then true else pyEq (attrD f "id") fid)
       else filterE (fun f =>
         getattrM f "name" >>= fun n => Except.ok (pyEq n fname))
         (forms.filter fun f => if isNone fid then true else pyEq (attrD f "id") fid)) =
      .ok (forms.filter (formMatches fid fname)) := by
    by_cases hfname : isNone fname = true
    · simp only [hfname, if_true]
      congr 1
      refine List.filter_congr (fun g _ => ?_)
      simp [formMatches, hfname]
    · simp only [hfname, if_false, Bool.false_eq_true]
      rw [filterE_eq_filter _ (fun f => pyEq (attrD f "name") fname) _ (fun g hg => by
        obtain ⟨v, hv⟩ := (h g (List.mem_of_mem_filter hg)).2
        simp [hv, attrD])]
      rw [List.filter_filter]
      congr 1
      refine List.filter_congr (fun g _ => ?_)
      simp [formMatches, hfname, Bool.and_comm]
  unfold find_form_filter
  rw [hys]
  simp only [ok_bind]
  rw [hstep1]
  simp only [ok_bind]
  rw [hstep2]
  simp only [ok_bind]

/-- C4: `find_form` filters the listed forms by id and by name, applying
both filters (logical AND) when both arguments are given: zero matches
fail with the NotFound `RuntimeError`, exactly one match is returned, and
more than one match fails with the AmbiguousMatch `RuntimeError`. -/
theorem find_form_matching (forms : List Val) (fid fname : Val)
    (h : hasIdAndName forms) :
    (forms.filter (formMatches fid fname) = [] →
        find_form_filter forms fid fname = .error .notFoundError) ∧
    (∀ g, forms.filter (formMatches fid fname) = [g] →
        find_form_filter forms fid fname = .ok g) ∧
    (2 ≤ (forms.filter (formMatches fid fname)).length →
        find_form_filter forms fid fname = .error .ambiguousMatchError) := by
  have key := find_form_filter_eq forms fid fname h
  refine ⟨?_, ?_, ?_⟩
  · intro hnil
    rw [key, hnil]
  · intro g hg
    rw [key, hg]
  · intro hlen
    rcases hl : forms.filter (formMatches fid fname) with _ | ⟨a, _ | ⟨b, rest⟩⟩
    · rw [hl] at hlen; simp at hlen
    · rw [hl] at hlen; simp at hlen
    · rw [key, hl]

/-- A concrete form entity with id 1 and name "a". -/
def sampleFormA : Val := .model .form (.obj [(.s "id", .int 1), (.s "name", .str "a")])

/-- A concrete form entity with id 2 that shares the name "a". -/
def sampleFormB : Val := .model .form (.obj [(.s "id", .int 2), (.s "name", .str "a")])

/-- Witness for C4 on two forms sharing the name "a": searching by the
shared name is ambiguous, by id 1 returns the first form, by id 1 AND name
"a" (both filters) returns the first form, and by id 3 finds nothing. -/
theorem find_form_matching_witness :
    find_form_filter [sampleFormA, sampleFormB] .null (.str "a") =
      .error .ambiguousMatchError ∧
    find_form_filter [sampleFormA, sampleFormB] (.int 1) .null = .ok sampleFormA ∧
    find_form_filter [sampleFormA, sampleFormB] (.int 1) (.str "a") = .ok sampleFormA ∧
    find_form_filter [sampleFormA, sampleFormB] (.int 3) .null =
      .error .notFoundError := by
  have hab : hasIdAndName [sampleFormA, sampleFormB] := by
    intro g hg
    rcases List.mem_cons.mp hg with rfl | hg2
    · exact ⟨⟨_, rfl⟩, ⟨_, rfl⟩⟩
    · rcases List.mem_cons.mp hg2 with rfl | hg3
      · exact ⟨⟨_, rfl⟩, ⟨_, rfl⟩⟩
      · exact absurd hg3 (List.not_mem_nil g)
  refine ⟨?_, ?_, ?_, ?_⟩
  · exact (find_form_matching [sampleFormA, sampleFormB] .null (.str "a") hab).2.2
      (by rfl)
  · exact (find_form_matching [sampleFormA, sampleFormB] (.int 1) .null hab).2.1
      sampleFormA (by rfl)
  · exact (find_form_matching [sampleFormA, sampleFormB] (.int 1) (.str "a") hab).2.1
      sampleFormA (by rfl)
  · exact (find_form_matching [sampleFormA, sampleFormB] (.int 3) .null hab).1
      (by rfl)

/-- The recursive pagination calls (pages 2 and up) return the raw item
lists of pages `p..N` concatenated in page order, requesting exactly pages
`p, p+1, ..., N` in order, without applying the factory (deferred
conversion). -/
theorem GET_pages_from (server : Server) (f : String)
    (env : Nat → List (PyKey × Val)) (items : Nat → List Val) (N : Nat)
    (fac : Option (Val → Except PyError Val))
    (hN : pagesOk server f env items N) (hf : f ≠ "") :
    ∀ fuel p, 2 ≤ p → p ≤ N → N + 1 ≤ p + fuel →
      GET server (.strF f) fac false p fuel =
        (List.range' p (N + 1 - p),
         .ok (.arr (((List.range' p (N + 1 - p)).map items).flatten))) := by
  intro fuel
  induction fuel with
  | zero => intro p hp2 hpN hfuel; omega
  | succ fuel ih =>
      intro p hp2 hpN hfuel
      obtain ⟨hst, hbody, hpage, htp, hfield⟩ := hN p (by omega) hpN
      have hst' : ¬ 300 ≤ (server p).status := by omega
      have hp1 : p ≠ 1 := by omega
      by_cases hpN2 : p = N
      · have hpe : pyEq (.int (p : Int)) (.int (N : Int)) = true := by
          simp [pyEq, hpN2]
        have hrange : N + 1 - p = 1 := by omega
        rw [hrange]
        simp [GET, hst', hbody, fieldTruthy_of_ne_empty hf, FieldArg.key,
              hfield, hpage, htp, hpe, GETfinish, hp1, List.range'_one]
      · have hne : pyEq (.int (p : Int)) (.int (N : Int)) = false :=
          pyEq_int_of_ne (by exact_mod_cast hpN2)
        have ihp := ih (p + 1) (by omega) (by omega) (by omega)
        have hr1 : N + 1 - p = (N - p) + 1 := by omega
        have hr2 : N + 1 - (p + 1) = N - p := by omega
        rw [hr2] at ihp
        rw [hr1, List.range'_succ]
        simp [GET, hst', hbody, fieldTruthy_of_ne_empty hf, FieldArg.key,
              hfield, hpage, htp, hne, ihp, pyAdd, GETfinish, hp1]

/-- C1: over `N` pages whose envelopes report `page = i` and
`total_pages = N`, each holding the list `items i` of length `k` in the
target field: the eager call returns exactly the `N*k` extracted items --
the concatenation of every page's items in page order with intra-page order
preserved, each wrapped by the factory exactly once -- requesting pages
`1..N` in order; the lazy call requests only page 1 and returns only page
1's items, regardless of `total_pages`. -/
theorem fetch_all_pagination (server : Server) (f : String)
    (env : Nat → List (PyKey × Val)) (items : Nat → List Val) (N k fuel : Nat)
    (hN1 : 1 ≤ N) (hf : f ≠ "") (hpages : pagesOk server f env items N)
    (hlen : ∀ i, 1 ≤ i → i ≤ N → (items i).length = k) (hfuel : N ≤ fuel) :
    GET server (.strF f) (some (listFactory .form f)) false 1 fuel =
      (List.range' 1 N,
       .ok (.arr ((((List.range' 1 N).map items).flatten).map
         (fun x => Val.model .form x)))) ∧
    ((((List.range' 1 N).map items).flatten).map
       (fun x => Val.model .form x)).length = N * k ∧
    GET server (.strF f) (some (listFactory .form f)) true 1 fuel =
      ([1], .ok (.arr ((items 1).map (fun x => Val.model .form x)))) := by
  obtain ⟨hst, hbody, hpage, htp, hfield⟩ := hpages 1 (by omega) hN1
  have hst' : ¬ 300 ≤ (server 1).status := by omega
  have hfac : listFactory .form f
      (.obj (dictSet (env 1) (.s f)
        (.arr (((List.range' 1 N).map items).flatten)))) =
      .ok (.arr ((((List.range' 1 N).map items).flatten).map
        (fun x => Val.model .form x))) := by
    simp [listFactory, pyGetItem, envLookup_dictSet, mapE_mkModel_form]
  refine ⟨?_, ?_, ?_⟩
  · cases fuel with
    | zero => omega
    | succ fuel =>
      by_cases hN2 : N = 1
      · have hpe : pyEq (.int (1 : Int)) (.int (N : Int)) = true := by
          simp [pyEq, hN2]
        have hr1 : N = 1 := hN2
        rw [hr1]
        simp only [List.range'_one, List.map_cons, List.map_nil,
          List.flatten_cons, List.flatten_nil, List.append_nil] at hfac ⊢
        rw [hr1] at hfac
        simp only [List.range'_one, List.map_cons, List.map_nil,
          List.flatten_cons, List.flatten_nil, List.append_nil] at hfac
        simp [GET, hst', hbody, fieldTruthy_of_ne_empty hf, FieldArg.key,
              hfield, hpage, htp, hpe, GETfinish, hfac]
      · have hne : pyEq (.int (1 : Int)) (.int (N : Int)) = false :=
          pyEq_int_of_ne (by exact_mod_cast Ne.symm hN2)
        have ihp := GET_pages_from server f env items N
          (some (listFactory .form f)) hpages hf fuel 2 (by omega) (by omega)
          (by omega)
        have hr2 : N + 1 - 2 = N - 1 := by omega
        rw [hr2] at ihp
        have hr1 : N = (N - 1) + 1 := by omega
        rw [hr1, List.range'_succ] at hfac ⊢
        simp only [List.map_cons, List.flatten_cons] at hfac ⊢
        simp [GET, hst', hbody, fieldTruthy_of_ne_empty hf, FieldArg.key,
              hfield, hpage, htp, hne, ihp, pyAdd, GETfinish, hfac]
  · rw [List.length_map]
    exact flatten_length_const items k N 1
      (fun i h1 h2 => hlen i h1 (by omega))
  · cases fuel with
    | zero => omega
    | succ fuel =>
      have hfac1 : listFactory .form f
          (.obj (dictSet (env 1) (.s f) (.arr (items 1)))) =
          .ok (.arr ((items 1).map (fun x => Val.model .form x))) := by
        simp [listFactory, pyGetItem, envLookup_dictSet, mapE_mkModel_form]
      simp [GET, hst', hbody, fieldTruthy_of_ne_empty hf, FieldArg.key,
            hfield, GETfinish, hfac1]

/-- Envelope of page `i` for the C1 witness: `page = i`, `total_pages = 2`,
one form per page. -/
def witnessEnv : Nat → List (PyKey × Val) := fun i =>
  [(.s "page", .int i), (.s "total_pages", .int 2),
   (.s "forms", .arr [.int (10 * i)])]

/-- Items of page `i` for the C1 witness. -/
def witnessItems : Nat → List Val := fun i => [.int (10 * i)]

/-- The 2-page server for the C1 witness. -/
def witnessServer : Server := fun p => ⟨200, .obj (witnessEnv p)⟩

/-- Witness for C1 at `N = 2` pages of `k = 1` item each: the eager call
requests pages 1 and 2 and returns both items in page order; the lazy call
requests only page 1 and returns its single item. -/
theorem fetch_all_pagination_witness :
    GET witnessServer (.strF "forms") (some (listFactory .form "forms")) false 1 3 =
      ([1, 2], .ok (.arr [.model .form (.int 10), .model .form (.int 20)])) ∧
    (2 : Nat) = 2 * 1 ∧
    GET witnessServer (.strF "forms") (some (listFactory .form "forms")) true 1 3 =
      ([1], .ok (.arr [.model .form (.int 10)])) := by
  have h := fetch_all_pagination witnessServer "forms" witnessEnv witnessItems
    2 1 3 (by omega) (by decide)
    (fun i h1 h2 => ⟨by show (200 : Nat) < 300; omega, rfl, rfl, rfl, rfl⟩)
    (fun i h1 h2 => rfl) (by omega)
  exact h

end ConvertKitModel
